import Mathlib

/-!
Verification of the `rust-orb-billing` price-interval and price modules.

The development shallowly embeds the two source files
`src/client/price_intervals.rs` and `src/client/prices.rs`.  JSON documents
are modelled as a tree (`Json`); serde's derived `Serialize`/`Deserialize`
implementations are translated into explicit Lean functions following serde's
documented semantics for the attributes used in the source
(`#[serde(tag = "adjustment_type")]`, `#[serde(rename = ...)]`,
`#[serde(skip_serializing_if = "Option::is_none")]`,
`#[serde(with = "time::serde::rfc3339::option")]`).

Rust `f64` payloads are carried as rationals: no claim in scope depends on
floating-point rounding, only on which JSON node (number vs string) a field
is serialized into.
-/

namespace OrbBilling

/-- A JSON document.  Objects are ordered lists of key/value pairs, matching
the order in which serde's derived serializers emit struct fields. -/
inductive Json where
  | null : Json
  | bool (b : Bool) : Json
  | num (x : Rat) : Json
  | str (s : String) : Json
  | arr (xs : List Json) : Json
  | obj (fields : List (String × Json)) : Json

/-- First binding of a key in an ordered field list. -/
def lookupField (fields : List (String × Json)) (k : String) : Option Json :=
  match fields with
  | [] => none
  | (k', v) :: rest => if k' = k then some v else lookupField rest k

/-- Field access on a JSON value: defined only on objects. -/
def Json.field (j : Json) (k : String) : Option Json :=
  match j with
  | .obj fields => lookupField fields k
  | _ => none

/-- The key list of a JSON object (empty on non-objects). -/
def Json.keys (j : Json) : List String :=
  match j with
  | .obj fields => fields.map Prod.fst
  | _ => []

/-- Modelled from the spec: the `time` crate's `OffsetDateTime` (external to
this repository) is a timezone-aware timestamp; we model it by its broken-down
calendar fields plus a UTC offset in minutes. -/
structure OffsetDateTime where
  year : Nat
  month : Nat
  day : Nat
  hour : Nat
  minute : Nat
  second : Nat
  offsetMinutes : Int
deriving DecidableEq

/-- Zero-pad a numeral to two digits. -/
def pad2 (n : Nat) : String :=
  if n < 10 then "0" ++ toString n else toString n

/-- Zero-pad a numeral to four digits. -/
def pad4 (n : Nat) : String :=
  if n < 10 then "000" ++ toString n
  else if n < 100 then "00" ++ toString n
  else if n < 1000 then "0" ++ toString n
  else toString n

/-- RFC3339 rendering of a UTC offset given in minutes. -/
def offsetText (o : Int) : String :=
  if o = 0 then "Z"
  else (if o < 0 then "-" else "+") ++ pad2 (o.natAbs / 60) ++ ":" ++ pad2 (o.natAbs % 60)

/-- Modelled from the spec: `time::serde::rfc3339` (external to this
repository) encodes an `OffsetDateTime` as an RFC3339 timestamp string. -/
def rfc3339 (d : OffsetDateTime) : String :=
  pad4 d.year ++ "-" ++ pad2 d.month ++ "-" ++ pad2 d.day ++ "T" ++
    pad2 d.hour ++ ":" ++ pad2 d.minute ++ ":" ++ pad2 d.second ++ offsetText d.offsetMinutes

/-- `NewAdjustment` from `price_intervals.rs`: a closed choice of two
variants, internally tagged on the wire by `adjustment_type`
(`#[serde(tag = "adjustment_type")]` with per-variant `rename`s). -/
inductive NewAdjustment where
  | PercentageDiscount (applies_to_price_ids : List String) (percentage_discount : Rat)
  | AmountDiscount (applies_to_price_ids : List String) (amount_discount : String)
deriving DecidableEq

/-- Derived `Serialize` for `NewAdjustment`: serde's internally-tagged enum
representation emits the tag field first, then the active variant's fields in
declaration order. -/
def serializeNewAdjustment (a : NewAdjustment) : Json :=
  match a with
  | .PercentageDiscount ids pd =>
      .obj [("adjustment_type", .str ("percentage_discount")),
            ("applies_to_price_ids", .arr (ids.map Json.str)),
            ("percentage_discount", .num pd)]
  | .AmountDiscount ids ad =>
      .obj [("adjustment_type", .str ("amount_discount")),
            ("applies_to_price_ids", .arr (ids.map Json.str)),
            ("amount_discount", .str ad)]

/-- `AddAdjustmentIntervalParams` from `price_intervals.rs`.  Both timestamp
fields carry `#[serde(skip_serializing_if = "Option::is_none")]` and
`#[serde(with = "time::serde::rfc3339::option")]`. -/
structure AddAdjustmentIntervalParams where
  adjustment : NewAdjustment
  start_date : Option OffsetDateTime
  end_date : Option OffsetDateTime
deriving DecidableEq

/-- Derived `Serialize` for `AddAdjustmentIntervalParams`: fields in
declaration order; an optional timestamp contributes no key at all when
`none` (`skip_serializing_if`), and an RFC3339 string when present. -/
def serializeAddAdjustmentIntervalParams (p : AddAdjustmentIntervalParams) : Json :=
  .obj ([("adjustment", serializeNewAdjustment p.adjustment)] ++
    (match p.start_date with
     | none => []
     | some d => [("start_date", .str (rfc3339 d))]) ++
    (match p.end_date with
     | none => []
     | some d => [("end_date", .str (rfc3339 d))]))

/-- `AddEditPriceIntervalParams` from `price_intervals.rs`.  The `add`,
`edit` and `edit_adjustments` fields have Rust type `Vec<()>` ("Not
implemented" in the source); their elements are Lean `Unit`s. -/
structure AddEditPriceIntervalParams where
  add_adjustments : List AddAdjustmentIntervalParams
  add : List Unit
  edit : List Unit
  edit_adjustments : List Unit
deriving DecidableEq

/-- `Default` for `AddEditPriceIntervalParams` (the source derives it): every
`Vec` defaults to empty. -/
def AddEditPriceIntervalParams.default : AddEditPriceIntervalParams :=
  ⟨[], [], [], []⟩

/-- Derived `Serialize` for `AddEditPriceIntervalParams`: all four fields are
always emitted, in declaration order (the `#[serde(default = "Vec::new")]`
attributes only affect deserialization).  A Rust `()` serializes as JSON
`null`, so a `Vec<()>` serializes as an array of nulls. -/
def serializeAddEditPriceIntervalParams (p : AddEditPriceIntervalParams) : Json :=
  .obj [("add_adjustments",
          .arr (p.add_adjustments.map serializeAddAdjustmentIntervalParams)),
        ("add", .arr (p.add.map fun _ => Json.null)),
        ("edit", .arr (p.edit.map fun _ => Json.null)),
        ("edit_adjustments", .arr (p.edit_adjustments.map fun _ => Json.null))]

/-- `Price` from `prices.rs`: `id` is required, `external_price_id` is an
`Option<String>` with no serde attributes. -/
structure Price where
  id : String
  external_price_id : Option String
deriving DecidableEq

/-- Derived `Serialize` for `Price`: both fields are always emitted in
declaration order; an `Option<String>` without attributes serializes `None`
as JSON `null` and `Some s` as the string. -/
def serializePrice (p : Price) : Json :=
  .obj [("id", .str p.id),
        ("external_price_id",
          match p.external_price_id with
          | none => Json.null
          | some s => Json.str s)]

/-- The field-collection loop of serde's derived `Deserialize` for `Price`:
walk the object's entries in order, filling each known field at most once
(a duplicate key is an error), skipping unknown keys (no
`deny_unknown_fields`).  `idSeen` / `epSeen` hold fields already filled. -/
def priceFromFields : List (String × Json) → Option String → Option (Option String) →
    Option Price
  | [], idSeen, epSeen =>
      -- end of input: `id` is required; a missing `Option` field defaults to `None`
      match idSeen with
      | none => none
      | some i => some ⟨i, epSeen.getD none⟩
  | (k, v) :: rest, idSeen, epSeen =>
      if k = "id" then
        match idSeen with
        | some _ => none
        | none =>
          match v with
          | .str s => priceFromFields rest (some s) epSeen
          | _ => none
      else if k = "external_price_id" then
        match epSeen with
        | some _ => none
        | none =>
          match v with
          | .null => priceFromFields rest idSeen (some none)
          | .str s => priceFromFields rest idSeen (some (some s))
          | _ => none
      else priceFromFields rest idSeen epSeen

/-- Derived `Deserialize` for `Price`: accepts a JSON object and collects its
fields. -/
def deserializePrice (j : Json) : Option Price :=
  match j with
  | .obj fields => priceFromFields fields none none
  | _ => none

/-- HTTP method of a request; the source only issues `Method::POST`, other
methods exist in the `reqwest` enum. -/
inductive Method where
  | POST : Method
  | GET : Method
deriving DecidableEq

/-- Modelled from the spec: the shared `Client`'s request value (the shared
client itself is external to this repository): a method, the path segments
supplied by the caller, and an optional JSON body. -/
structure Request where
  method : Method
  pathSegments : List String
  body : Option Json

/-- Modelled from the spec: `Client::build_request(method, path_segments)`
joins a fixed base path with the given segments; the request starts with no
body. -/
def buildRequest (method : Method) (segments : List String) : Request :=
  ⟨method, segments, none⟩

/-- `RequestBuilder::json(params)`: attaches the serialized params as the
JSON request body. -/
def Request.withJson (r : Request) (j : Json) : Request :=
  { r with body := some j }

/-- Modelled from the spec: the path of a request is its segments each
preceded by a slash, i.e. `/subscriptions/{id}/price_intervals`. -/
def requestPath (r : Request) : String :=
  String.join (r.pathSegments.map fun s => "/" ++ s)

/-- Modelled from the spec: the `Error` type (external module) covers
transport, decode and API-status failures. -/
inductive Error where
  | Transport (message : String)
  | Decode (message : String)
  | Api (status : Nat) (payload : Json)

/-- Modelled from the spec: the `Subscription` record is owned by an external
module; we model it as carrying the decoded response document. -/
structure Subscription where
  decoded : Json

/-- `Client::add_edit_price_intervals` from `price_intervals.rs`, with the
shared client's `send_request` (external, spec-modelled) passed in as the
function `send`: build a POST request on
`["subscriptions", subscription_id, "price_intervals"]`, attach `params` as
JSON, send it, propagate an error with `?`, and wrap a success in `Ok`. -/
def add_edit_price_intervals (send : Request → Except Error Subscription)
    (subscription_id : String) (params : AddEditPriceIntervalParams) :
    Except Error Subscription :=
  let req := buildRequest Method.POST ["subscriptions", subscription_id, "price_intervals"]
  let req := req.withJson (serializeAddEditPriceIntervalParams params)
  match send req with
  | .error e => .error e
  | .ok res => .ok res

/-- The request value `add_edit_price_intervals` hands to `send_request`. -/
def addEditPriceIntervalsRequest (subscription_id : String)
    (params : AddEditPriceIntervalParams) : Request :=
  (buildRequest Method.POST
      ["subscriptions", subscription_id, "price_intervals"]).withJson
    (serializeAddEditPriceIntervalParams params)

/-- A program over the shared client's only effect, `send_request`.  Used to
count outbound HTTP calls. -/
inductive HttpProg (α : Type) where
  | pure (a : α) : HttpProg α
  | send (r : Request) (k : Except Error Subscription → HttpProg α) : HttpProg α

/-- The body of `add_edit_price_intervals` written as an effect program:
one `send_request` on the built request, then return its result. -/
def addEditPriceIntervalsProg (subscription_id : String)
    (params : AddEditPriceIntervalParams) : HttpProg (Except Error Subscription) :=
  .send (addEditPriceIntervalsRequest subscription_id params) fun res =>
    match res with
    | .error e => .pure (.error e)
    | .ok s => .pure (.ok s)

/-- Run an effect program against an environment answering each send. -/
def HttpProg.run (env : Request → Except Error Subscription) :
    HttpProg α → α
  | .pure a => a
  | .send r k => (k (env r)).run env

/-- Count the `send_request` invocations a program performs against an
environment. -/
def HttpProg.countSends (env : Request → Except Error Subscription) :
    HttpProg α → Nat
  | .pure _ => 0
  | .send r k => (k (env r)).countSends env + 1

/-- Helper: the serialization of `AddEditPriceIntervalParams` spelled out. -/
theorem serializeAddEditPriceIntervalParams_eq (p : AddEditPriceIntervalParams) :
    serializeAddEditPriceIntervalParams p =
      .obj [("add_adjustments",
              .arr (p.add_adjustments.map serializeAddAdjustmentIntervalParams)),
            ("add", .arr (p.add.map fun _ => Json.null)),
            ("edit", .arr (p.edit.map fun _ => Json.null)),
            ("edit_adjustments", .arr (p.edit_adjustments.map fun _ => Json.null))] :=
  rfl

/-- C1: serializing any `AddEditPriceIntervalParams` yields a JSON object
whose keys are exactly `add_adjustments`, `add`, `edit`, `edit_adjustments`;
a field whose list is empty still contributes an empty JSON array under its
key (the key is never omitted). -/
theorem addEditParams_serializes_exactly_four_keys (p : AddEditPriceIntervalParams) :
    (serializeAddEditPriceIntervalParams p).keys =
      ["add_adjustments", "add", "edit", "edit_adjustments"] ∧
    (p.add_adjustments = [] →
      (serializeAddEditPriceIntervalParams p).field ("add_adjustments") =
        some (.arr [])) ∧
    (p.add = [] →
      (serializeAddEditPriceIntervalParams p).field ("add") = some (.arr [])) ∧
    (p.edit = [] →
      (serializeAddEditPriceIntervalParams p).field ("edit") = some (.arr [])) ∧
    (p.edit_adjustments = [] →
      (serializeAddEditPriceIntervalParams p).field ("edit_adjustments") =
        some (.arr [])) := by
  refine ⟨rfl, ?_, ?_, ?_, ?_⟩ <;> intro h <;>
    simp [serializeAddEditPriceIntervalParams, Json.field, lookupField, h]

/-- Witness for C1 at the default (all-empty) params value. -/
theorem addEditParams_serializes_exactly_four_keys_witness :
    (serializeAddEditPriceIntervalParams AddEditPriceIntervalParams.default).keys =
      ["add_adjustments", "add", "edit", "edit_adjustments"] ∧
    (serializeAddEditPriceIntervalParams AddEditPriceIntervalParams.default).field
      ("add_adjustments") = some (.arr []) ∧
    (serializeAddEditPriceIntervalParams AddEditPriceIntervalParams.default).field
      ("add") = some (.arr []) := by
  have h := addEditParams_serializes_exactly_four_keys AddEditPriceIntervalParams.default
  exact ⟨h.1, h.2.1 rfl, h.2.2.1 rfl⟩

/-- C2: the serialization of a `NewAdjustment` is a single object whose
`adjustment_type` key holds the literal tag of the active variant, whose
remaining keys are exactly the active variant's fields, and which carries no
field of the other variant. -/
theorem newAdjustment_internally_tagged (a : NewAdjustment) :
    ∃ fields, serializeNewAdjustment a = .obj fields ∧
      match a with
      | .PercentageDiscount ids pd =>
          fields.map Prod.fst =
            ["adjustment_type", "applies_to_price_ids", "percentage_discount"] ∧
          lookupField fields ("adjustment_type") =
            some (.str ("percentage_discount")) ∧
          lookupField fields ("applies_to_price_ids") =
            some (.arr (ids.map Json.str)) ∧
          lookupField fields ("percentage_discount") = some (.num pd) ∧
          lookupField fields ("amount_discount") = none
      | .AmountDiscount ids ad =>
          fields.map Prod.fst =
            ["adjustment_type", "applies_to_price_ids", "amount_discount"] ∧
          lookupField fields ("adjustment_type") = some (.str ("amount_discount")) ∧
          lookupField fields ("applies_to_price_ids") =
            some (.arr (ids.map Json.str)) ∧
          lookupField fields ("amount_discount") = some (.str ad) ∧
          lookupField fields ("percentage_discount") = none := by
  cases a <;> exact ⟨_, rfl, by simp [lookupField]⟩

/-- C3: in the serialization of `AddAdjustmentIntervalParams`, an unset
timestamp produces no key at all, and a set one produces an RFC3339 string
under its key; with `start_date` set and `end_date` unset the object has a
`start_date` key holding the RFC3339 string and no `end_date` key. -/
theorem addAdjustmentInterval_optional_dates (p : AddAdjustmentIntervalParams) :
    (p.start_date = none →
      (serializeAddAdjustmentIntervalParams p).field ("start_date") = none) ∧
    (p.end_date = none →
      (serializeAddAdjustmentIntervalParams p).field ("end_date") = none) ∧
    (∀ d, p.start_date = some d →
      (serializeAddAdjustmentIntervalParams p).field ("start_date") =
        some (.str (rfc3339 d))) ∧
    (∀ d, p.end_date = some d →
      (serializeAddAdjustmentIntervalParams p).field ("end_date") =
        some (.str (rfc3339 d))) := by
  obtain ⟨a, sd, ed⟩ := p
  cases sd <;> cases ed <;>
    simp [serializeAddAdjustmentIntervalParams, Json.field, lookupField]

/-- Witness for C3: one concrete params value with `start_date` set and
`end_date` unset. -/
theorem addAdjustmentInterval_optional_dates_witness :
    (serializeAddAdjustmentIntervalParams
        ⟨NewAdjustment.AmountDiscount [] ("10.00"),
         some ⟨2024, 1, 2, 3, 4, 5, 0⟩, none⟩).field ("start_date") =
      some (.str ("2024-01-02T03:04:05Z")) ∧
    (serializeAddAdjustmentIntervalParams
        ⟨NewAdjustment.AmountDiscount [] ("10.00"),
         some ⟨2024, 1, 2, 3, 4, 5, 0⟩, none⟩).field ("end_date") = none := by
  have h := addAdjustmentInterval_optional_dates
    ⟨NewAdjustment.AmountDiscount [] ("10.00"),
     some ⟨2024, 1, 2, 3, 4, 5, 0⟩, none⟩
  exact ⟨h.2.2.1 ⟨2024, 1, 2, 3, 4, 5, 0⟩ rfl, h.2.1 rfl⟩

/-- C4 counterexample: the `add` field of `AddEditPriceIntervalParams` has
the public Rust type `Vec<()>`, so a caller can populate it; a unit
serializes as JSON `null`, and the field then serializes as `[null]`, not as
the empty array the claim requires for every value. -/
theorem addEditParams_reserved_fields_counterexample :
    (serializeAddEditPriceIntervalParams ⟨[], [()], [], []⟩).field ("add") ≠
      some (.arr []) := by
  simp [serializeAddEditPriceIntervalParams, Json.field, lookupField]

/-- C4 (amended): whenever the reserved fields `add`, `edit`,
`edit_adjustments` are empty — as every constructor in the crate leaves
them — each serializes as an empty JSON array under its key. -/
theorem addEditParams_reserved_fields_empty (p : AddEditPriceIntervalParams)
    (ha : p.add = []) (he : p.edit = []) (hea : p.edit_adjustments = []) :
    (serializeAddEditPriceIntervalParams p).field ("add") = some (.arr []) ∧
    (serializeAddEditPriceIntervalParams p).field ("edit") = some (.arr []) ∧
    (serializeAddEditPriceIntervalParams p).field ("edit_adjustments") =
      some (.arr []) := by
  simp [serializeAddEditPriceIntervalParams, Json.field, lookupField, ha, he, hea]

/-- Witness for the amended C4 at the default params value. -/
theorem addEditParams_reserved_fields_empty_witness :
    (serializeAddEditPriceIntervalParams AddEditPriceIntervalParams.default).field
        ("edit") = some (.arr []) :=
  (addEditParams_reserved_fields_empty AddEditPriceIntervalParams.default
    rfl rfl rfl).2.1

/-- C5: an `AmountDiscount` adjustment serializes its `amount_discount` as a
JSON string equal to the given amount text, never as a numeric JSON node. -/
theorem amountDiscount_serializes_as_string (ids : List String) (amount : String) :
    (serializeNewAdjustment (.AmountDiscount ids amount)).field
        ("amount_discount") = some (.str amount) ∧
    ∀ x : Rat, (serializeNewAdjustment (.AmountDiscount ids amount)).field
        ("amount_discount") ≠ some (.num x) := by
  constructor
  · simp [serializeNewAdjustment, Json.field, lookupField]
  · intro x
    simp [serializeNewAdjustment, Json.field, lookupField]

/-- Witness for C5 at the spec's example amount `10.00`. -/
theorem amountDiscount_serializes_as_string_witness :
    (serializeNewAdjustment (.AmountDiscount ["price_1"] ("10.00"))).field
        ("amount_discount") = some (.str ("10.00")) ∧
    (serializeNewAdjustment (.AmountDiscount ["price_1"] ("10.00"))).field
        ("amount_discount") ≠ some (.num 10) := by
  have h := amountDiscount_serializes_as_string ["price_1"] ("10.00")
  exact ⟨h.1, h.2 10⟩

/-- C6: `add_edit_price_intervals` builds an HTTP POST whose path segments
are exactly `subscriptions`, the given subscription id, `price_intervals`,
in that order; for subscription id `sub_123` the request path is exactly
`/subscriptions/sub_123/price_intervals`. -/
theorem addEditPriceIntervals_request_shape (subscription_id : String)
    (params : AddEditPriceIntervalParams) :
    (addEditPriceIntervalsRequest subscription_id params).method = Method.POST ∧
    (addEditPriceIntervalsRequest subscription_id params).pathSegments =
      ["subscriptions", subscription_id, "price_intervals"] ∧
    requestPath (addEditPriceIntervalsRequest ("sub_123") params) =
      "/subscriptions/sub_123/price_intervals" := by
  refine ⟨rfl, rfl, ?_⟩
  simp [requestPath, addEditPriceIntervalsRequest, buildRequest, Request.withJson,
    String.join]

/-- C7: the call returns `Ok` with the decoded subscription exactly when the
shared client's `send_request` succeeds on the built request, and otherwise
returns exactly the error `send_request` produced. -/
theorem addEditPriceIntervals_propagates_send_result
    (send : Request → Except Error Subscription) (subscription_id : String)
    (params : AddEditPriceIntervalParams) :
    (∀ s : Subscription,
      add_edit_price_intervals send subscription_id params = .ok s ↔
        send (addEditPriceIntervalsRequest subscription_id params) = .ok s) ∧
    (∀ e : Error,
      add_edit_price_intervals send subscription_id params = .error e ↔
        send (addEditPriceIntervalsRequest subscription_id params) = .error e) := by
  have hreq : add_edit_price_intervals send subscription_id params =
      send (addEditPriceIntervalsRequest subscription_id params) := by
    cases h : send (addEditPriceIntervalsRequest subscription_id params) <;>
      simp [add_edit_price_intervals, addEditPriceIntervalsRequest] at h ⊢ <;>
      rw [h]
  rw [hreq]
  exact ⟨fun _ => Iff.rfl, fun _ => Iff.rfl⟩

/-- Witness for C7 at a concrete environment whose `send_request` always
succeeds with a fixed subscription. -/
theorem addEditPriceIntervals_propagates_send_result_witness :
    add_edit_price_intervals (fun _ => .ok ⟨Json.null⟩) ("sub_123")
      AddEditPriceIntervalParams.default = .ok ⟨Json.null⟩ := by
  have h := addEditPriceIntervals_propagates_send_result
    (fun _ => .ok ⟨Json.null⟩) ("sub_123") AddEditPriceIntervalParams.default
  exact (h.1 ⟨Json.null⟩).2 rfl

/-- C8: in every environment, the effect program of
`add_edit_price_intervals` performs exactly one `send_request`, and running
it agrees with the direct embedding (so the call is a pure function of the
client's answer: no local state is read or mutated, and the params value the
request was built from is left untouched). -/
theorem addEditPriceIntervals_single_send
    (env : Request → Except Error Subscription) (subscription_id : String)
    (params : AddEditPriceIntervalParams) :
    (addEditPriceIntervalsProg subscription_id params).countSends env = 1 ∧
    (addEditPriceIntervalsProg subscription_id params).run env =
      add_edit_price_intervals env subscription_id params := by
  simp only [addEditPriceIntervalsProg, add_edit_price_intervals,
    addEditPriceIntervalsRequest, HttpProg.countSends, HttpProg.run]
  cases env ((buildRequest Method.POST
      ["subscriptions", subscription_id, "price_intervals"]).withJson
      (serializeAddEditPriceIntervalParams params)) <;>
    simp [HttpProg.countSends, HttpProg.run]

/-- C9: serializing a `Price` and deserializing the result gives back the
original value. -/
theorem price_roundtrip (p : Price) :
    deserializePrice (serializePrice p) = some p := by
  obtain ⟨i, ep⟩ := p
  cases ep <;> simp [serializePrice, deserializePrice, priceFromFields]

/-- C10: a `Price` with no `external_price_id` still serializes with the
`external_price_id` key present and bound to JSON `null` (unlike the omitted
optional timestamps of `AddAdjustmentIntervalParams`), and deserialization
maps both an explicit `null` and an absent key to `none`. -/
theorem price_external_id_null_not_omitted (p : Price)
    (hp : p.external_price_id = none) (i : String) :
    serializePrice p =
      .obj [("id", .str p.id), ("external_price_id", Json.null)] ∧
    (serializePrice p).field ("external_price_id") = some Json.null ∧
    deserializePrice
        (.obj [("id", .str i), ("external_price_id", Json.null)]) =
      some ⟨i, none⟩ ∧
    deserializePrice (.obj [("id", .str i)]) = some ⟨i, none⟩ := by
  refine ⟨?_, ?_, ?_, ?_⟩ <;>
    simp [serializePrice, deserializePrice, priceFromFields, Json.field,
      lookupField, hp]

/-- Witness for C10 at a concrete price with no external id. -/
theorem price_external_id_null_not_omitted_witness :
    serializePrice ⟨"price_1", none⟩ =
      .obj [("id", .str ("price_1")), ("external_price_id", Json.null)] ∧
    deserializePrice (.obj [("id", .str ("price_1"))]) =
      some ⟨"price_1", none⟩ := by
  have h := price_external_id_null_not_omitted ⟨"price_1", none⟩ rfl ("price_1")
  exact ⟨h.1, h.2.2.2⟩

end OrbBilling
